import Mathlib

/-!
Shallow embedding of `prometheus_fastapi_instrumentator/metrics.py`.

The module defines the `Info` record, the label selector
`_build_label_attribute_names`, and five metric factories (`latency`,
`request_size`, `response_size`, `combined_size`, `default`).  Each factory
registers one or more instruments (names and label names are what matter
for the verified properties) and returns an instrumentation closure that
takes an `Info` and performs instrument updates.

The embedding represents a closure invocation by the list of instrument
updates (`Event`s) it performs, in order, paired with an optional Python
exception that aborted it (`PyErr`).  Earlier side effects survive a later
exception, matching Python statement-by-statement semantics.  Header maps
are association lists; Python `int(...)` on a header string is `pyInt`;
Python string truthiness is `truthy`.  Bucket tuples are lists of `PyFloat`
so that the `float("inf")` sentinel is represented exactly; `buckets[-1]`
on an empty tuple is an `IndexError`, so constructors taking buckets return
`Option` (`none` = construction-time failure).
-/

set_option autoImplicit false

namespace PFI

/-- A Python float as used by this module: a finite value or `float("inf")`.
Only equality with the infinity sentinel is ever tested by the source. -/
inductive PyFloat where
  | fin : Rat → PyFloat
  | inf : PyFloat
deriving DecidableEq, Repr

/-- Python exceptions that the instrumentation closures can raise. -/
inductive PyErr where
  /-- Python `ValueError`, e.g. from `int()` on a non-numeric string. -/
  | valueError : PyErr
  /-- Python `AttributeError`, e.g. from `None.headers` or a bad `getattr`. -/
  | attributeError : PyErr
  /-- Raised by the registry when `labels(*values)` gets the wrong arity. -/
  | labelArityError : PyErr
deriving DecidableEq, Repr

/-- A header multimap, as exposed by Starlette requests/responses.  The
source only ever calls `.get("Content-Length", default)`. -/
structure Request where
  headers : List (String × String)
deriving DecidableEq, Repr

/-- The response handle; `Info.response` may be absent (`None`). -/
structure Response where
  headers : List (String × String)
deriving DecidableEq, Repr

/-- Models `headers.get(key, None)`: first value for the key, if any. -/
def headers_get (hs : List (String × String)) (key : String) : Option String :=
  hs.lookup key

/-- The `Info` object handed to every instrumentation function. -/
structure Info where
  request : Request
  response : Option Response
  method : String
  modified_handler : String
  modified_status : String
  modified_duration : Rat

/-- The selector `_build_label_attribute_names`: appends, in the fixed order
handler, method, status, the label name and the `Info` attribute name
whenever the corresponding flag is set. -/
def _build_label_attribute_names (should_include_handler : Bool)
    (should_include_method : Bool) (should_include_status : Bool) :
    List String × List String :=
  ((if should_include_handler then ["handler"] else []) ++
     (if should_include_method then ["method"] else []) ++
     (if should_include_status then ["status"] else []),
   (if should_include_handler then ["modified_handler"] else []) ++
     (if should_include_method then ["method"] else []) ++
     (if should_include_status then ["modified_status"] else []))

/-- Models `getattr(info, attribute_name)` restricted to the attribute names this
module ever feeds it (the second component of
`_build_label_attribute_names`); any other name is an `AttributeError`,
modelled as `none`. -/
def getattrInfo (info : Info) (attribute_name : String) : Option String :=
  if attribute_name = "modified_handler" then some info.modified_handler
  else if attribute_name = "method" then some info.method
  else if attribute_name = "modified_status" then some info.modified_status
  else none

/-- The `label_values` list built by each closure:
`for attribute_name in info_attribute_names: append(getattr(info, attribute_name))`. -/
def label_values (info : Info) (info_attribute_names : List String) :
    Option (List String) :=
  info_attribute_names.mapM (getattrInfo info)

/-- Python truthiness of an optional header value: `None` and the empty
string are falsy, any other string is truthy. -/
def truthy : Option String → Bool
  | none => false
  | some s => s != ""

/-- Accumulate a decimal digit string; `none` on any non-digit. -/
def digitsVal (cs : List Char) : Option Nat :=
  cs.foldlM (fun acc c => if c.isDigit then some (acc * 10 + (c.toNat - 48)) else none) 0

/-- The characters of `s` with surrounding whitespace stripped, as Python
`int()` does before parsing. -/
def pyStrip (s : String) : List Char :=
  ((s.toList.dropWhile Char.isWhitespace).reverse.dropWhile Char.isWhitespace).reverse

/-- Python `int(s)` on a string: strips whitespace, accepts an optional
sign followed by at least one digit, raises `ValueError` otherwise. -/
def pyInt (s : String) : Except PyErr Int :=
  match pyStrip s with
  | [] => Except.error PyErr.valueError
  | c :: cs =>
    if c = '-' then
      match digitsVal cs with
      | some n => if cs.isEmpty then Except.error PyErr.valueError else Except.ok (-(n : Int))
      | none => Except.error PyErr.valueError
    else if c = '+' then
      match digitsVal cs with
      | some n => if cs.isEmpty then Except.error PyErr.valueError else Except.ok (n : Int)
      | none => Except.error PyErr.valueError
    else
      match digitsVal (c :: cs) with
      | some n => Except.ok (n : Int)
      | none => Except.error PyErr.valueError

/-- Models `int(headers.get("Content-Length", 0))` as used by `default`: the
default `0` already is an int, a present header string is parsed. -/
def pyIntOrZero : Option String → Except PyErr Int
  | none => Except.ok 0
  | some s => pyInt s

/-- One instrument update performed by a closure: a counter increment or a
histogram/summary observation, with the bound label values ([] when the
instrument is label-free). -/
inductive Event where
  | inc (metric : String) (labelValues : List String)
  | observe (metric : String) (labelValues : List String) (value : Rat)
deriving DecidableEq, Repr

/-- The label values an event was bound with. -/
def Event.labelsOf : Event → List String
  | Event.inc _ ls => ls
  | Event.observe _ ls _ => ls

/-- Whether an event is a counter increment. -/
def Event.isInc : Event → Bool
  | Event.inc _ _ => true
  | Event.observe _ _ _ => false

/-- The result of calling a closure: the instrument updates performed, in
order, and the exception that aborted it, if any. -/
abbrev RunResult := List Event × Option PyErr

/-- A registered summary/counter instrument: its name and label names.
Documentation, namespace and subsystem strings are omitted: they only
affect the exposition text, not any verified behavior. -/
structure MetricReg where
  name : String
  labelnames : List String
deriving DecidableEq, Repr

/-- A registered histogram instrument: name, label names and buckets. -/
structure HistReg where
  name : String
  labelnames : List String
  buckets : List PyFloat
deriving DecidableEq, Repr

/-- Models `if buckets[-1] != float("inf"): buckets = buckets + (float("inf"),)`.
`buckets[-1]` on an empty tuple raises `IndexError`, modelled as `none`. -/
def normalizeBuckets (buckets : List PyFloat) : Option (List PyFloat) :=
  match buckets.getLast? with
  | none => none
  | some lastBucket =>
    if lastBucket ≠ PyFloat.inf then some (buckets ++ [PyFloat.inf]) else some buckets

/-- The labeled-observe block each closure repeats:
`METRIC.labels(*label_values).observe(arg)` when label names are present,
`METRIC.observe(arg)` otherwise.  `arg` is passed as an `Except` because
Python evaluates the argument (e.g. `int(content_length)`) after the
`labels(...)` binding, so an arity failure precedes an argument failure. -/
def observe_bound (metric_name : String) (label_names : List String)
    (info_attribute_names : List String) (info : Info) (arg : Except PyErr Rat) :
    RunResult :=
  if label_names ≠ [] then
    match label_values info info_attribute_names with
    | none => ([], some PyErr.attributeError)
    | some vals =>
      if vals.length = label_names.length then
        match arg with
        | Except.error e => ([], some e)
        | Except.ok x => ([Event.observe metric_name vals x], none)
      else ([], some PyErr.labelArityError)
  else
    match arg with
    | Except.error e => ([], some e)
    | Except.ok x => ([Event.observe metric_name [] x], none)

/-- The closure returned by `latency`: observes `info.modified_duration`,
binding label values first when label names are present. -/
def latency_instrumentation (metric_name : String) (label_names : List String)
    (info_attribute_names : List String) (info : Info) : RunResult :=
  observe_bound metric_name label_names info_attribute_names info
    (Except.ok info.modified_duration)

/-- The factory `latency(...)`: normalizes buckets (failing on an empty tuple),
registers the histogram with the selected labels (or label-free) and
returns the instrumentation closure. -/
def latency (metric_name : String) (should_include_handler : Bool)
    (should_include_method : Bool) (should_include_status : Bool)
    (buckets : List PyFloat) : Option (HistReg × (Info → RunResult)) :=
  match normalizeBuckets buckets with
  | none => none
  | some bs =>
    let p := _build_label_attribute_names should_include_handler
      should_include_method should_include_status
    if p.1 ≠ [] then
      some (⟨metric_name, p.1, bs⟩, latency_instrumentation metric_name p.1 p.2)
    else
      some (⟨metric_name, [], bs⟩, latency_instrumentation metric_name p.1 p.2)

/-- The closure returned by `request_size`: reads the request
`Content-Length`; absent header means no observation at all; a present
header is bound to labels (when any) and parsed with `int(...)`. -/
def request_size_instrumentation (metric_name : String) (label_names : List String)
    (info_attribute_names : List String) (info : Info) : RunResult :=
  match headers_get info.request.headers "Content-Length" with
  | none => ([], none)
  | some content_length =>
    observe_bound metric_name label_names info_attribute_names info
      ((pyInt content_length).map (fun n => (n : Rat)))

/-- The factory `request_size(...)`: registers the summary and returns the closure. -/
def request_size (metric_name : String) (should_include_handler : Bool)
    (should_include_method : Bool) (should_include_status : Bool) :
    MetricReg × (Info → RunResult) :=
  let p := _build_label_attribute_names should_include_handler
    should_include_method should_include_status
  if p.1 ≠ [] then
    (⟨metric_name, p.1⟩, request_size_instrumentation metric_name p.1 p.2)
  else
    (⟨metric_name, []⟩, request_size_instrumentation metric_name p.1 p.2)

/-- The closure returned by `response_size`: like `request_size` but reads
`info.response.headers`, so an absent response handle raises
`AttributeError` before anything is recorded. -/
def response_size_instrumentation (metric_name : String) (label_names : List String)
    (info_attribute_names : List String) (info : Info) : RunResult :=
  match info.response with
  | none => ([], some PyErr.attributeError)
  | some response =>
    match headers_get response.headers "Content-Length" with
    | none => ([], none)
    | some content_length =>
      observe_bound metric_name label_names info_attribute_names info
        ((pyInt content_length).map (fun n => (n : Rat)))

/-- The factory `response_size(...)`: registers the summary and returns the closure. -/
def response_size (metric_name : String) (should_include_handler : Bool)
    (should_include_method : Bool) (should_include_status : Bool) :
    MetricReg × (Info → RunResult) :=
  let p := _build_label_attribute_names should_include_handler
    should_include_method should_include_status
  if p.1 ≠ [] then
    (⟨metric_name, p.1⟩, response_size_instrumentation metric_name p.1 p.2)
  else
    (⟨metric_name, []⟩, response_size_instrumentation metric_name p.1 p.2)

/-- The `if request_cl and response_cl ... elif ... else` chain of
`combined_size`: the combined content length, `none` when both header
values are falsy, propagating `int(...)` failures. -/
def combined_content_length (request_cl response_cl : Option String) :
    Except PyErr (Option Int) :=
  if truthy request_cl && truthy response_cl then
    match pyInt (request_cl.getD "") with
    | Except.error e => Except.error e
    | Except.ok a =>
      match pyInt (response_cl.getD "") with
      | Except.error e => Except.error e
      | Except.ok b => Except.ok (some (a + b))
  else if truthy request_cl then
    match pyInt (request_cl.getD "") with
    | Except.error e => Except.error e
    | Except.ok a => Except.ok (some a)
  else if truthy response_cl then
    match pyInt (response_cl.getD "") with
    | Except.error e => Except.error e
    | Except.ok b => Except.ok (some b)
  else Except.ok none

/-- The closure returned by `combined_size`: reads both `Content-Length`
headers (dereferencing `info.response`, which raises on an absent
response), combines them per `combined_content_length`, and observes the
result when it is not `None`. -/
def combined_size_instrumentation (metric_name : String) (label_names : List String)
    (info_attribute_names : List String) (info : Info) : RunResult :=
  match info.response with
  | none => ([], some PyErr.attributeError)
  | some response =>
    let request_cl := headers_get info.request.headers "Content-Length"
    let response_cl := headers_get response.headers "Content-Length"
    match combined_content_length request_cl response_cl with
    | Except.error e => ([], some e)
    | Except.ok none => ([], none)
    | Except.ok (some content_length) =>
      observe_bound metric_name label_names info_attribute_names info
        (Except.ok (content_length : Rat))

/-- The factory `combined_size(...)`: registers the summary and returns the closure. -/
def combined_size (metric_name : String) (should_include_handler : Bool)
    (should_include_method : Bool) (should_include_status : Bool) :
    MetricReg × (Info → RunResult) :=
  let p := _build_label_attribute_names should_include_handler
    should_include_method should_include_status
  if p.1 ≠ [] then
    (⟨metric_name, p.1⟩, combined_size_instrumentation metric_name p.1 p.2)
  else
    (⟨metric_name, []⟩, combined_size_instrumentation metric_name p.1 p.2)

/-- The closure returned by `default`: increments the request counter,
observes request and response content lengths (absent header defaults to
0), and observes `modified_duration` into both latency histograms, in the
source's statement order.  An exception aborts the remaining updates but
keeps the earlier ones. -/
def default_instrumentation (info : Info) : RunResult :=
  let e1 := Event.inc "http_requests_total"
    [info.method, info.modified_status, info.modified_handler]
  match pyIntOrZero (headers_get info.request.headers "Content-Length") with
  | Except.error err => ([e1], some err)
  | Except.ok inSize =>
    let e2 := Event.observe "http_request_size_bytes" [info.modified_handler] (inSize : Rat)
    match info.response with
    | none => ([e1, e2], some PyErr.attributeError)
    | some response =>
      match pyIntOrZero (headers_get response.headers "Content-Length") with
      | Except.error err => ([e1, e2], some err)
      | Except.ok outSize =>
        let e3 := Event.observe "http_response_size_bytes" [info.modified_handler] (outSize : Rat)
        let e4 := Event.observe "http_request_duration_highr_seconds" [] info.modified_duration
        let e5 := Event.observe "http_request_duration_seconds" [info.modified_handler]
          info.modified_duration
        ([e1, e2, e3, e4, e5], none)

/-- The factory `default(...)` (named `default_metric` here because `default` is taken
by the Lean prelude): normalizes both bucket tuples, failing on an empty
one, registers the five instruments and returns the bundle closure. -/
def default_metric (latency_highr_buckets latency_lowr_buckets : List PyFloat) :
    Option ((HistReg × HistReg) × (Info → RunResult)) :=
  match normalizeBuckets latency_highr_buckets with
  | none => none
  | some hb =>
    match normalizeBuckets latency_lowr_buckets with
    | none => none
    | some lb =>
      some ((⟨"http_request_duration_highr_seconds", [], hb⟩,
             ⟨"http_request_duration_seconds", ["handler"], lb⟩),
            default_instrumentation)

/-- The label values the selector's attribute list extracts from an
`Info`, in selector order; used to state what labeled closures observe. -/
def builtLabelValues (should_include_handler : Bool) (should_include_method : Bool)
    (should_include_status : Bool) (info : Info) : List String :=
  (if should_include_handler then [info.modified_handler] else []) ++
    (if should_include_method then [info.method] else []) ++
    (if should_include_status then [info.modified_status] else [])

/-- Response fixture with an optional `Content-Length` header. -/
def mkResp : Option String → Response
  | none => ⟨[]⟩
  | some v => ⟨[("Content-Length", v)]⟩

/-- An `Info` fixture: optional request `Content-Length` header, optional
response handle, fixed normalized attributes. -/
def mkInfo (reqCL : Option String) (resp : Option Response) : Info :=
  { request := ⟨match reqCL with | none => [] | some v => [("Content-Length", v)]⟩
    response := resp
    method := "GET"
    modified_handler := "/items"
    modified_status := "2xx"
    modified_duration := 1 }

theorem label_values_build (h m s : Bool) (info : Info) :
    label_values info (_build_label_attribute_names h m s).2
      = some (builtLabelValues h m s info) := by
  cases h <;> cases m <;> cases s <;> rfl

theorem builtLabelValues_length (h m s : Bool) (info : Info) :
    (builtLabelValues h m s info).length
      = (_build_label_attribute_names h m s).1.length := by
  cases h <;> cases m <;> cases s <;> rfl

theorem pyInt_empty : pyInt "" = Except.error PyErr.valueError := rfl

theorem request_size_fst (metric_name : String) (h m s : Bool) :
    (request_size metric_name h m s).1
      = ⟨metric_name, (_build_label_attribute_names h m s).1⟩ := by
  unfold request_size
  by_cases hp : (_build_label_attribute_names h m s).1 = [] <;> simp [hp]

theorem request_size_snd (metric_name : String) (h m s : Bool) :
    (request_size metric_name h m s).2
      = request_size_instrumentation metric_name
          (_build_label_attribute_names h m s).1
          (_build_label_attribute_names h m s).2 := by
  unfold request_size
  by_cases hp : (_build_label_attribute_names h m s).1 = [] <;> simp [hp]

theorem response_size_fst (metric_name : String) (h m s : Bool) :
    (response_size metric_name h m s).1
      = ⟨metric_name, (_build_label_attribute_names h m s).1⟩ := by
  unfold response_size
  by_cases hp : (_build_label_attribute_names h m s).1 = [] <;> simp [hp]

theorem response_size_snd (metric_name : String) (h m s : Bool) :
    (response_size metric_name h m s).2
      = response_size_instrumentation metric_name
          (_build_label_attribute_names h m s).1
          (_build_label_attribute_names h m s).2 := by
  unfold response_size
  by_cases hp : (_build_label_attribute_names h m s).1 = [] <;> simp [hp]

theorem combined_size_fst (metric_name : String) (h m s : Bool) :
    (combined_size metric_name h m s).1
      = ⟨metric_name, (_build_label_attribute_names h m s).1⟩ := by
  unfold combined_size
  by_cases hp : (_build_label_attribute_names h m s).1 = [] <;> simp [hp]

theorem combined_size_snd (metric_name : String) (h m s : Bool) :
    (combined_size metric_name h m s).2
      = combined_size_instrumentation metric_name
          (_build_label_attribute_names h m s).1
          (_build_label_attribute_names h m s).2 := by
  unfold combined_size
  by_cases hp : (_build_label_attribute_names h m s).1 = [] <;> simp [hp]

theorem builtLabelValues_nil (h m s : Bool) (info : Info)
    (hp : (_build_label_attribute_names h m s).1 = []) :
    builtLabelValues h m s info = [] := by
  have hl := builtLabelValues_length h m s info
  rw [hp] at hl
  exact List.length_eq_zero.mp hl

theorem observe_bound_build (metric_name : String) (h m s : Bool) (info : Info)
    (x : Rat) :
    observe_bound metric_name (_build_label_attribute_names h m s).1
        (_build_label_attribute_names h m s).2 info (Except.ok x)
      = ([Event.observe metric_name (builtLabelValues h m s info) x], none) := by
  unfold observe_bound
  by_cases hp : (_build_label_attribute_names h m s).1 = []
  · rw [builtLabelValues_nil h m s info hp]
    simp [hp]
  · rw [label_values_build]
    simp [hp, builtLabelValues_length]

theorem observe_bound_propagates (metric_name : String) (h m s : Bool) (info : Info)
    (e : PyErr) :
    observe_bound metric_name (_build_label_attribute_names h m s).1
        (_build_label_attribute_names h m s).2 info (Except.error e)
      = ([], some e) := by
  unfold observe_bound
  by_cases hp : (_build_label_attribute_names h m s).1 = []
  · simp [hp]
  · rw [label_values_build]
    simp [hp, builtLabelValues_length]

theorem pyInt_ok_bne {s : String} {a : Int} (hs : pyInt s = Except.ok a) :
    (s != "") = true := by
  rcases eq_or_ne s "" with rfl | hne
  · rw [pyInt_empty] at hs
    exact Except.noConfusion hs
  · simpa [bne_iff_ne] using hne

theorem pyInt_cases (s : String) :
    pyInt s = Except.error PyErr.valueError ∨ ∃ n, pyInt s = Except.ok n := by
  unfold pyInt
  cases pyStrip s with
  | nil => exact Or.inl rfl
  | cons c cs =>
    dsimp only
    split_ifs <;>
      first
        | (cases hd : digitsVal cs <;> simp [hd])
        | (cases hd : digitsVal (c :: cs) <;> simp [hd])

theorem pyInt_error_eq {s : String} {e : PyErr} (he : pyInt s = Except.error e) :
    e = PyErr.valueError := by
  rcases pyInt_cases s with hv | ⟨n, hn⟩
  · rw [hv] at he
    exact (Except.error.inj he).symm
  · rw [hn] at he
    exact Except.noConfusion he

theorem truthy_none : truthy none = false := rfl

theorem truthy_some (s : String) : truthy (some s) = (s != "") := rfl

theorem combined_cl_both {r q : String} {a b : Int}
    (ha : pyInt r = Except.ok a) (hb : pyInt q = Except.ok b) :
    combined_content_length (some r) (some q) = Except.ok (some (a + b)) := by
  unfold combined_content_length
  simp [truthy_some, pyInt_ok_bne ha, pyInt_ok_bne hb, ha, hb]

theorem combined_cl_left {r : String} {a : Int} (ha : pyInt r = Except.ok a)
    (q : Option String) (hq : truthy q = false) :
    combined_content_length (some r) q = Except.ok (some a) := by
  unfold combined_content_length
  simp [truthy_some, pyInt_ok_bne ha, hq, ha]

theorem combined_cl_right {q : String} {b : Int} (hb : pyInt q = Except.ok b)
    (rc : Option String) (hr : truthy rc = false) :
    combined_content_length rc (some q) = Except.ok (some b) := by
  unfold combined_content_length
  simp [truthy_some, pyInt_ok_bne hb, hr, hb]

theorem combined_cl_left_error {r : String} {e : PyErr} (htr : (r != "") = true)
    (he : pyInt r = Except.error e) (q : Option String) :
    combined_content_length (some r) q = Except.error e := by
  unfold combined_content_length
  cases hq : truthy q <;> simp [truthy_some, htr, hq, he]

theorem combined_cl_right_error {q : String} {e : PyErr} (htq : (q != "") = true)
    (he : pyInt q = Except.error e) :
    combined_content_length none (some q) = Except.error e := by
  unfold combined_content_length
  simp [truthy_some, truthy_none, htq, he]

/-- C4: `_build_label_attribute_names` appends label and attribute names
in the fixed priority order handler → method → status, each only when its
flag is true; the two lists always have equal length with pairwise
correspondence, and the all-false input yields two empty lists. -/
theorem build_label_attribute_names_spec :
    ∀ h m s : Bool,
      ((_build_label_attribute_names h m s).1.length
        = (_build_label_attribute_names h m s).2.length) ∧
      _build_label_attribute_names false false false = ([], []) ∧
      ((_build_label_attribute_names h m s).1.zip (_build_label_attribute_names h m s).2
        ⊆ [("handler", "modified_handler"), ("method", "method"),
           ("status", "modified_status")]) ∧
      (_build_label_attribute_names h m s).1.Sublist ["handler", "method", "status"] ∧
      (_build_label_attribute_names h m s).2.Sublist
        ["modified_handler", "method", "modified_status"] ∧
      (("handler" ∈ (_build_label_attribute_names h m s).1) ↔ h = true) ∧
      (("method" ∈ (_build_label_attribute_names h m s).1) ↔ m = true) ∧
      (("status" ∈ (_build_label_attribute_names h m s).1) ↔ s = true) := by
  decide

/-- C6: bucket normalization is idempotent on non-empty bucket sequences —
a sequence already ending in the infinity sentinel is returned
identically, any other gets exactly one infinity appended, and
re-normalizing a normalized result changes nothing. -/
theorem normalizeBuckets_idempotent (l : List PyFloat) (hne : l ≠ []) :
    (l.getLast? = some PyFloat.inf → normalizeBuckets l = some l) ∧
    (l.getLast? ≠ some PyFloat.inf → normalizeBuckets l = some (l ++ [PyFloat.inf])) ∧
    (∀ r, normalizeBuckets l = some r → normalizeBuckets r = some r) := by
  obtain ⟨a, ha⟩ : ∃ a, l.getLast? = some a := by
    cases hl : l.getLast? with
    | none => exact absurd (List.getLast?_eq_none_iff.mp hl) hne
    | some a => exact ⟨a, rfl⟩
  refine ⟨?_, ?_, ?_⟩
  · intro hinf
    unfold normalizeBuckets
    rw [hinf]
    simp
  · intro hinf
    unfold normalizeBuckets
    rw [ha]
    have : a ≠ PyFloat.inf := by
      intro hcon
      exact hinf (hcon ▸ ha)
    simp [this]
  · intro r hr
    unfold normalizeBuckets at hr ⊢
    rw [ha] at hr
    by_cases hinf : a = PyFloat.inf
    · subst hinf
      simp at hr
      subst hr
      rw [ha]
      simp
    · simp [hinf] at hr
      subst hr
      rw [List.getLast?_concat]
      simp

theorem normalizeBuckets_idempotent_witness :
    normalizeBuckets [PyFloat.fin 1] = some [PyFloat.fin 1, PyFloat.inf] := by
  have h := (normalizeBuckets_idempotent [PyFloat.fin 1] (by decide)).2.1 (by decide)
  simpa using h

/-- C10: constructing `latency` or `default` with an empty bucket tuple
fails up front (`buckets[-1]` raises before any guard): no instrument is
registered and no closure is returned. -/
theorem empty_buckets_construction_fails (metric_name : String) (h m s : Bool)
    (hb lb : List PyFloat) :
    latency metric_name h m s [] = none ∧
    default_metric [] lb = none ∧
    default_metric hb [] = none := by
  refine ⟨rfl, rfl, ?_⟩
  unfold default_metric
  cases hnb : normalizeBuckets hb <;> simp [hnb, normalizeBuckets]

/-- C1: contrary to the claim, the size- and status-dependent closures do
not tolerate an absent response handle — with `response = None`,
`response_size` and `combined_size` raise `AttributeError` before
recording anything, and `default` raises it after its first two updates,
because each dereferences `info.response.headers` unguarded. -/
theorem response_absent_raises :
    ((response_size "http_response_size_bytes" true true true).2
        (mkInfo (some "120") none) = ([], some PyErr.attributeError)) ∧
    ((combined_size "http_combined_size_bytes" true true true).2
        (mkInfo (some "120") none) = ([], some PyErr.attributeError)) ∧
    (default_instrumentation (mkInfo (some "120") none)
      = ([Event.inc "http_requests_total" ["GET", "2xx", "/items"],
          Event.observe "http_request_size_bytes" ["/items"] 120],
         some PyErr.attributeError)) := by
  refine ⟨rfl, rfl, rfl⟩

/-- C5: the `request_size` (resp. `response_size`) closure records no
observation at all when the request (resp. response) lacks a
`Content-Length` header; when the header is present its value is parsed to
an integer and observed into the summary. -/
theorem size_functions_skip_or_observe (metric_name : String) (h m s : Bool)
    (info : Info) (resp : Response) (hresp : info.response = some resp) :
    (headers_get info.request.headers "Content-Length" = none →
      (request_size metric_name h m s).2 info = ([], none)) ∧
    (headers_get resp.headers "Content-Length" = none →
      (response_size metric_name h m s).2 info = ([], none)) ∧
    (∀ r a, headers_get info.request.headers "Content-Length" = some r →
      pyInt r = Except.ok a →
      (request_size metric_name h m s).2 info
        = ([Event.observe metric_name (builtLabelValues h m s info) (a : Rat)], none)) ∧
    (∀ q b, headers_get resp.headers "Content-Length" = some q →
      pyInt q = Except.ok b →
      (response_size metric_name h m s).2 info
        = ([Event.observe metric_name (builtLabelValues h m s info) (b : Rat)], none)) := by
  rw [request_size_snd, response_size_snd]
  refine ⟨?_, ?_, ?_, ?_⟩
  · intro hnone
    unfold request_size_instrumentation
    rw [hnone]
  · intro hnone
    unfold response_size_instrumentation
    rw [hresp]
    simp only [hnone]
  · intro r a hr ha
    unfold request_size_instrumentation
    rw [hr]
    simp only [ha, Except.map_ok]
    exact observe_bound_build metric_name h m s info (a : Rat)
  · intro q b hq hb
    unfold response_size_instrumentation
    rw [hresp]
    simp only [hq, hb, Except.map_ok]
    exact observe_bound_build metric_name h m s info (b : Rat)

theorem size_functions_skip_or_observe_witness :
    (request_size "http_request_size_bytes" true true true).2
        (mkInfo none (some (mkResp none))) = ([], none) ∧
    (request_size "http_request_size_bytes" true true true).2
        (mkInfo (some "120") (some (mkResp none)))
      = ([Event.observe "http_request_size_bytes" ["/items", "GET", "2xx"] 120], none) := by
  constructor
  · exact (size_functions_skip_or_observe "http_request_size_bytes" true true true
      (mkInfo none (some (mkResp none))) (mkResp none) rfl).1 rfl
  · have hx := (size_functions_skip_or_observe "http_request_size_bytes" true true true
      (mkInfo (some "120") (some (mkResp none))) (mkResp none) rfl).2.2.1 "120" 120 rfl rfl
    exact hx

/-- C2: the `combined_size` closure observes the sum of the two
`Content-Length` values when both headers carry values, the single present
value when exactly one header is present, and records nothing when
neither header is present. -/
theorem combined_size_values (metric_name : String) (h m s : Bool)
    (info : Info) (resp : Response) (hresp : info.response = some resp) :
    (∀ r q a b, headers_get info.request.headers "Content-Length" = some r →
      headers_get resp.headers "Content-Length" = some q →
      pyInt r = Except.ok a → pyInt q = Except.ok b →
      (combined_size metric_name h m s).2 info
        = ([Event.observe metric_name (builtLabelValues h m s info)
              ((a + b : Int) : Rat)], none)) ∧
    (∀ r a, headers_get info.request.headers "Content-Length" = some r →
      headers_get resp.headers "Content-Length" = none →
      pyInt r = Except.ok a →
      (combined_size metric_name h m s).2 info
        = ([Event.observe metric_name (builtLabelValues h m s info) (a : Rat)], none)) ∧
    (∀ q b, headers_get info.request.headers "Content-Length" = none →
      headers_get resp.headers "Content-Length" = some q →
      pyInt q = Except.ok b →
      (combined_size metric_name h m s).2 info
        = ([Event.observe metric_name (builtLabelValues h m s info) (b : Rat)], none)) ∧
    (headers_get info.request.headers "Content-Length" = none →
      headers_get resp.headers "Content-Length" = none →
      (combined_size metric_name h m s).2 info = ([], none)) := by
  rw [combined_size_snd]
  refine ⟨?_, ?_, ?_, ?_⟩
  · intro r q a b hr hq ha hb
    unfold combined_size_instrumentation
    rw [hresp]
    simp only [hr, hq, combined_cl_both ha hb]
    exact observe_bound_build metric_name h m s info ((a + b : Int) : Rat)
  · intro r a hr hq ha
    unfold combined_size_instrumentation
    rw [hresp]
    simp only [hr, hq, combined_cl_left ha none truthy_none]
    exact observe_bound_build metric_name h m s info (a : Rat)
  · intro q b hr hq hb
    unfold combined_size_instrumentation
    rw [hresp]
    simp only [hr, hq, combined_cl_right hb none truthy_none]
    exact observe_bound_build metric_name h m s info (b : Rat)
  · intro hr hq
    unfold combined_size_instrumentation
    rw [hresp]
    simp only [hr, hq]
    rfl

theorem combined_size_values_witness :
    (combined_size "http_combined_size_bytes" true true true).2
        (mkInfo (some "120") (some (mkResp (some "340"))))
      = ([Event.observe "http_combined_size_bytes" ["/items", "GET", "2xx"] 460], none) ∧
    (combined_size "http_combined_size_bytes" true true true).2
        (mkInfo (some "120") (some (mkResp none)))
      = ([Event.observe "http_combined_size_bytes" ["/items", "GET", "2xx"] 120], none) := by
  constructor
  · have hx := (combined_size_values "http_combined_size_bytes" true true true
      (mkInfo (some "120") (some (mkResp (some "340")))) (mkResp (some "340")) rfl).1
      "120" "340" 120 340 rfl rfl rfl rfl
    simpa using hx
  · have hx := (combined_size_values "http_combined_size_bytes" true true true
      (mkInfo (some "120") (some (mkResp none))) (mkResp none) rfl).2.1
      "120" 120 rfl rfl rfl
    simpa using hx

theorem combined_cl_error_eq {rc qc : Option String} {e : PyErr}
    (he : combined_content_length rc qc = Except.error e) : e = PyErr.valueError := by
  unfold combined_content_length at he
  rcases pyInt_cases (rc.getD "") with h1 | ⟨a, h1⟩ <;>
    rcases pyInt_cases (qc.getD "") with h2 | ⟨b, h2⟩ <;>
    rw [h1, h2] at he <;>
    split_ifs at he <;>
    simp_all

/-- C8: a `Content-Length` header that is present but not parseable as an
integer makes the observe closures of `request_size`, `response_size` and
`combined_size` propagate the parse failure to the caller instead of
silently skipping. -/
theorem malformed_content_length_propagates (metric_name : String) (h m s : Bool)
    (info : Info) (resp : Response) (hresp : info.response = some resp) :
    (∀ r e, headers_get info.request.headers "Content-Length" = some r →
      pyInt r = Except.error e →
      (request_size metric_name h m s).2 info = ([], some e)) ∧
    (∀ q e, headers_get resp.headers "Content-Length" = some q →
      pyInt q = Except.error e →
      (response_size metric_name h m s).2 info = ([], some e)) ∧
    (∀ r e, headers_get info.request.headers "Content-Length" = some r →
      (r != "") = true → pyInt r = Except.error e →
      (combined_size metric_name h m s).2 info = ([], some e)) ∧
    (∀ q e, headers_get info.request.headers "Content-Length" = none →
      headers_get resp.headers "Content-Length" = some q →
      (q != "") = true → pyInt q = Except.error e →
      (combined_size metric_name h m s).2 info = ([], some e)) := by
  rw [request_size_snd, response_size_snd, combined_size_snd]
  refine ⟨?_, ?_, ?_, ?_⟩
  · intro r e hr he
    unfold request_size_instrumentation
    rw [hr]
    simp only [he, Except.map_error]
    exact observe_bound_propagates metric_name h m s info e
  · intro q e hq he
    unfold response_size_instrumentation
    rw [hresp]
    simp only [hq, he, Except.map_error]
    exact observe_bound_propagates metric_name h m s info e
  · intro r e hr htr he
    unfold combined_size_instrumentation
    rw [hresp]
    simp only [hr, combined_cl_left_error htr he]
  · intro q e hr hq htq he
    unfold combined_size_instrumentation
    rw [hresp]
    simp only [hr, hq, combined_cl_right_error htq he]

theorem malformed_content_length_propagates_witness :
    (request_size "http_request_size_bytes" true true true).2
        (mkInfo (some "abc") (some (mkResp none))) = ([], some PyErr.valueError) := by
  exact (malformed_content_length_propagates "http_request_size_bytes" true true true
    (mkInfo (some "abc") (some (mkResp none))) (mkResp none) rfl).1 "abc"
    PyErr.valueError rfl rfl

/-- C9: a present `Content-Length` with an empty-string value is handled
inconsistently — `combined_size`'s truthiness test treats it like an
absent header (falling back to the other header or skipping), while
`request_size`/`response_size` only test presence and then fail parsing
the empty string. -/
theorem empty_value_content_length_inconsistency (metric_name : String)
    (h m s : Bool) (info : Info) (resp : Response)
    (hresp : info.response = some resp) :
    (headers_get info.request.headers "Content-Length" = some "" →
      (request_size metric_name h m s).2 info = ([], some PyErr.valueError)) ∧
    (headers_get resp.headers "Content-Length" = some "" →
      (response_size metric_name h m s).2 info = ([], some PyErr.valueError)) ∧
    (∀ q b, headers_get info.request.headers "Content-Length" = some "" →
      headers_get resp.headers "Content-Length" = some q →
      pyInt q = Except.ok b →
      (combined_size metric_name h m s).2 info
        = ([Event.observe metric_name (builtLabelValues h m s info) (b : Rat)], none)) ∧
    (headers_get info.request.headers "Content-Length" = some "" →
      headers_get resp.headers "Content-Length" = some "" →
      (combined_size metric_name h m s).2 info = ([], none)) := by
  rw [request_size_snd, response_size_snd, combined_size_snd]
  refine ⟨?_, ?_, ?_, ?_⟩
  · intro hr
    unfold request_size_instrumentation
    rw [hr]
    simp only [pyInt_empty, Except.map_error]
    exact observe_bound_propagates metric_name h m s info PyErr.valueError
  · intro hq
    unfold response_size_instrumentation
    rw [hresp]
    simp only [hq, pyInt_empty, Except.map_error]
    exact observe_bound_propagates metric_name h m s info PyErr.valueError
  · intro q b hr hq hb
    unfold combined_size_instrumentation
    rw [hresp]
    have hcl : combined_content_length (some "") (some q) = Except.ok (some b) := by
      have := combined_cl_right hb (some "") (by simp [truthy_some])
      exact this
    simp only [hr, hq, hcl]
    exact observe_bound_build metric_name h m s info (b : Rat)
  · intro hr hq
    unfold combined_size_instrumentation
    rw [hresp]
    simp only [hr, hq]
    rfl

theorem empty_value_content_length_inconsistency_witness :
    (request_size "http_request_size_bytes" true true true).2
        (mkInfo (some "") (some (mkResp (some "340")))) = ([], some PyErr.valueError) ∧
    (combined_size "http_combined_size_bytes" true true true).2
        (mkInfo (some "") (some (mkResp (some "340"))))
      = ([Event.observe "http_combined_size_bytes" ["/items", "GET", "2xx"] 340], none) := by
  constructor
  · exact (empty_value_content_length_inconsistency "http_request_size_bytes" true true
      true (mkInfo (some "") (some (mkResp (some "340")))) (mkResp (some "340")) rfl).1 rfl
  · have hx := (empty_value_content_length_inconsistency "http_combined_size_bytes" true
      true true (mkInfo (some "") (some (mkResp (some "340")))) (mkResp (some "340"))
      rfl).2.2.1 "340" 340 rfl rfl rfl
    simpa using hx

/-- C3: one call to the `default` bundle closure increments
`http_requests_total` exactly once, observes the same `modified_duration`
into both latency histograms, and treats a missing `Content-Length` on the
request or the response as the value 0, always observing all five
numbers. -/
theorem default_observes_bundle (info : Info) (resp : Response)
    (hresp : info.response = some resp) (a b : Int)
    (ha : pyIntOrZero (headers_get info.request.headers "Content-Length") = Except.ok a)
    (hb : pyIntOrZero (headers_get resp.headers "Content-Length") = Except.ok b) :
    default_instrumentation info
      = ([Event.inc "http_requests_total"
            [info.method, info.modified_status, info.modified_handler],
          Event.observe "http_request_size_bytes" [info.modified_handler] (a : Rat),
          Event.observe "http_response_size_bytes" [info.modified_handler] (b : Rat),
          Event.observe "http_request_duration_highr_seconds" [] info.modified_duration,
          Event.observe "http_request_duration_seconds" [info.modified_handler]
            info.modified_duration], none) ∧
    ((default_instrumentation info).1.countP (fun e => e.isInc) = 1) ∧
    (headers_get info.request.headers "Content-Length" = none → a = 0) ∧
    (headers_get resp.headers "Content-Length" = none → b = 0) := by
  have hmain : default_instrumentation info
      = ([Event.inc "http_requests_total"
            [info.method, info.modified_status, info.modified_handler],
          Event.observe "http_request_size_bytes" [info.modified_handler] (a : Rat),
          Event.observe "http_response_size_bytes" [info.modified_handler] (b : Rat),
          Event.observe "http_request_duration_highr_seconds" [] info.modified_duration,
          Event.observe "http_request_duration_seconds" [info.modified_handler]
            info.modified_duration], none) := by
    unfold default_instrumentation
    rw [hresp]
    simp only [ha, hb]
  refine ⟨hmain, ?_, ?_, ?_⟩
  · rw [hmain]
    rfl
  · intro hnone
    rw [hnone] at ha
    have := Except.ok.inj ha
    exact this.symm
  · intro hnone
    rw [hnone] at hb
    have := Except.ok.inj hb
    exact this.symm

theorem default_observes_bundle_witness :
    default_instrumentation (mkInfo none (some (mkResp none)))
      = ([Event.inc "http_requests_total" ["GET", "2xx", "/items"],
          Event.observe "http_request_size_bytes" ["/items"] 0,
          Event.observe "http_response_size_bytes" ["/items"] 0,
          Event.observe "http_request_duration_highr_seconds" [] 1,
          Event.observe "http_request_duration_seconds" ["/items"] 1], none) := by
  have hx := (default_observes_bundle (mkInfo none (some (mkResp none))) (mkResp none)
    rfl 0 0 rfl rfl).1
  simpa using hx

theorem observe_bound_build_arg (metric_name : String) (h m s : Bool) (info : Info)
    (arg : Except PyErr Rat) :
    observe_bound metric_name (_build_label_attribute_names h m s).1
        (_build_label_attribute_names h m s).2 info arg
      = (match arg with
         | Except.error e => ([], some e)
         | Except.ok x =>
             ([Event.observe metric_name (builtLabelValues h m s info) x], none)) := by
  cases arg with
  | error e => exact observe_bound_propagates metric_name h m s info e
  | ok x => exact observe_bound_build metric_name h m s info x

theorem request_size_run (metric_name : String) (h m s : Bool) (info : Info) :
    (request_size metric_name h m s).2 info
      = match headers_get info.request.headers "Content-Length" with
        | none => ([], none)
        | some cl =>
          match pyInt cl with
          | Except.error e => ([], some e)
          | Except.ok n =>
            ([Event.observe metric_name (builtLabelValues h m s info) (n : Rat)], none) := by
  rw [request_size_snd]
  unfold request_size_instrumentation
  cases hcl : headers_get info.request.headers "Content-Length" with
  | none => rfl
  | some cl =>
    dsimp only
    cases hpi : pyInt cl with
    | error e =>
      exact observe_bound_propagates metric_name h m s info e
    | ok n =>
      exact observe_bound_build metric_name h m s info (n : Rat)

theorem response_size_run (metric_name : String) (h m s : Bool) (info : Info) :
    (response_size metric_name h m s).2 info
      = match info.response with
        | none => ([], some PyErr.attributeError)
        | some resp =>
          match headers_get resp.headers "Content-Length" with
          | none => ([], none)
          | some cl =>
            match pyInt cl with
            | Except.error e => ([], some e)
            | Except.ok n =>
              ([Event.observe metric_name (builtLabelValues h m s info) (n : Rat)], none) := by
  rw [response_size_snd]
  unfold response_size_instrumentation
  cases hre : info.response with
  | none => rfl
  | some resp =>
    dsimp only
    cases hcl : headers_get resp.headers "Content-Length" with
    | none => rfl
    | some cl =>
      dsimp only
      cases hpi : pyInt cl with
      | error e =>
        exact observe_bound_propagates metric_name h m s info e
      | ok n =>
        exact observe_bound_build metric_name h m s info (n : Rat)

theorem combined_size_run (metric_name : String) (h m s : Bool) (info : Info) :
    (combined_size metric_name h m s).2 info
      = match info.response with
        | none => ([], some PyErr.attributeError)
        | some resp =>
          match combined_content_length
              (headers_get info.request.headers "Content-Length")
              (headers_get resp.headers "Content-Length") with
          | Except.error e => ([], some e)
          | Except.ok none => ([], none)
          | Except.ok (some n) =>
            ([Event.observe metric_name (builtLabelValues h m s info) (n : Rat)], none) := by
  rw [combined_size_snd]
  unfold combined_size_instrumentation
  cases hre : info.response with
  | none => rfl
  | some resp =>
    dsimp only
    cases hcc : combined_content_length
        (headers_get info.request.headers "Content-Length")
        (headers_get resp.headers "Content-Length") with
    | error e => rfl
    | ok oc =>
      cases oc with
      | none => rfl
      | some n =>
        dsimp only
        exact observe_bound_build metric_name h m s info (n : Rat)

/-- C7: each metric-producing function registers its instrument with
exactly the labels the selector yields (a label-free instrument when the
selector yields none), and the zero-label closures (all three flags
false) observe directly, binding no label values and never failing with a
label-arity mismatch. -/
theorem registration_labels_and_zero_label_observe (metric_name : String)
    (h m s : Bool) (bs : List PyFloat) (reg : HistReg) (f : Info → RunResult)
    (hlat : latency metric_name h m s bs = some (reg, f)) :
    reg.labelnames = (_build_label_attribute_names h m s).1 ∧
    (request_size metric_name h m s).1.labelnames
      = (_build_label_attribute_names h m s).1 ∧
    (response_size metric_name h m s).1.labelnames
      = (_build_label_attribute_names h m s).1 ∧
    (combined_size metric_name h m s).1.labelnames
      = (_build_label_attribute_names h m s).1 ∧
    (h = false → m = false → s = false → ∀ info : Info,
      f info = ([Event.observe metric_name [] info.modified_duration], none) ∧
      ((request_size metric_name h m s).2 info).2 ≠ some PyErr.labelArityError ∧
      (∀ ev ∈ ((request_size metric_name h m s).2 info).1, ev.labelsOf = []) ∧
      ((response_size metric_name h m s).2 info).2 ≠ some PyErr.labelArityError ∧
      (∀ ev ∈ ((response_size metric_name h m s).2 info).1, ev.labelsOf = []) ∧
      ((combined_size metric_name h m s).2 info).2 ≠ some PyErr.labelArityError ∧
      (∀ ev ∈ ((combined_size metric_name h m s).2 info).1, ev.labelsOf = [])) := by
  obtain ⟨hreg, hf⟩ : reg.labelnames = (_build_label_attribute_names h m s).1 ∧
      f = latency_instrumentation metric_name (_build_label_attribute_names h m s).1
        (_build_label_attribute_names h m s).2 := by
    unfold latency at hlat
    cases hnb : normalizeBuckets bs with
    | none =>
      rw [hnb] at hlat
      exact Option.noConfusion hlat
    | some nb =>
      rw [hnb] at hlat
      by_cases hp : (_build_label_attribute_names h m s).1 = [] <;>
        simp only [hp, ne_eq, not_true_eq_false, not_false_eq_true, if_true, if_false,
          ite_true, ite_false, Option.some.injEq, Prod.mk.injEq] at hlat <;>
        obtain ⟨hr1, hf1⟩ := hlat
      · refine ⟨?_, ?_⟩
        · rw [← hr1]
          exact hp.symm
        · rw [hp]
          exact hf1.symm
      · refine ⟨?_, ?_⟩
        · rw [← hr1]
        · exact hf1.symm
  refine ⟨hreg, by rw [request_size_fst], by rw [response_size_fst],
    by rw [combined_size_fst], ?_⟩
  intro hh hm hs info
  subst hh; subst hm; subst hs
  have hbv : builtLabelValues false false false info = [] := rfl
  refine ⟨?_, ?_, ?_, ?_, ?_, ?_, ?_⟩
  · rw [hf]
    rfl
  · rw [request_size_run]
    cases hcl : headers_get info.request.headers "Content-Length" with
    | none => simp
    | some cl =>
      dsimp only
      cases hpi : pyInt cl with
      | error e =>
        have he := pyInt_error_eq hpi
        simp [he]
      | ok n => simp
  · rw [request_size_run]
    cases hcl : headers_get info.request.headers "Content-Length" with
    | none => simp
    | some cl =>
      dsimp only
      cases hpi : pyInt cl with
      | error e => simp
      | ok n => simp [hbv, Event.labelsOf]
  · rw [response_size_run]
    cases hre : info.response with
    | none => simp
    | some resp =>
      dsimp only
      cases hcl : headers_get resp.headers "Content-Length" with
      | none => simp
      | some cl =>
        dsimp only
        cases hpi : pyInt cl with
        | error e =>
          have he := pyInt_error_eq hpi
          simp [he]
        | ok n => simp
  · rw [response_size_run]
    cases hre : info.response with
    | none => simp
    | some resp =>
      dsimp only
      cases hcl : headers_get resp.headers "Content-Length" with
      | none => simp
      | some cl =>
        dsimp only
        cases hpi : pyInt cl with
        | error e => simp
        | ok n => simp [hbv, Event.labelsOf]
  · rw [combined_size_run]
    cases hre : info.response with
    | none => simp
    | some resp =>
      dsimp only
      cases hcc : combined_content_length
          (headers_get info.request.headers "Content-Length")
          (headers_get resp.headers "Content-Length") with
      | error e =>
        have he := combined_cl_error_eq hcc
        simp [he]
      | ok oc =>
        cases oc with
        | none => simp
        | some n => simp
  · rw [combined_size_run]
    cases hre : info.response with
    | none => simp
    | some resp =>
      dsimp only
      cases hcc : combined_content_length
          (headers_get info.request.headers "Content-Length")
          (headers_get resp.headers "Content-Length") with
      | error e => simp
      | ok oc =>
        cases oc with
        | none => simp
        | some n => simp [hbv, Event.labelsOf]

theorem registration_labels_and_zero_label_observe_witness :
    HistReg.labelnames ⟨"http_request_duration_seconds", [], [PyFloat.fin 1, PyFloat.inf]⟩
      = (_build_label_attribute_names false false false).1 ∧
    (latency_instrumentation "http_request_duration_seconds"
        (_build_label_attribute_names false false false).1
        (_build_label_attribute_names false false false).2
        (mkInfo none (some (mkResp none)))
      = ([Event.observe "http_request_duration_seconds" [] 1], none)) := by
  have hx := registration_labels_and_zero_label_observe "http_request_duration_seconds"
    false false false [PyFloat.fin 1]
    ⟨"http_request_duration_seconds", [], [PyFloat.fin 1, PyFloat.inf]⟩
    (latency_instrumentation "http_request_duration_seconds"
      (_build_label_attribute_names false false false).1
      (_build_label_attribute_names false false false).2) rfl
  exact ⟨hx.1, (hx.2.2.2.2 rfl rfl rfl (mkInfo none (some (mkResp none)))).1⟩

end PFI
